import Mathlib

/-!
Verification of the PIV-smartcard signing backend (`apple-codesign/src/yubikey.rs`)
and the sign-command timestamp configuration (`tugger-apple-codesign/src/main.rs`)
of the `cryptography-rs` repository.

The Rust sources are shallowly embedded: machine integers become `Nat`, byte
buffers become `List Nat`, fallible calls become `Except`, and the mutable
smartcard device becomes explicit state passing over an abstract state type.
Hardware behaviour (the actual card) is abstracted as oracle functions stored
in the device record; counters instrumenting how often each oracle is invoked
are threaded through the control flow, which otherwise mirrors the source
line by line.
-/

namespace AppleCodesign

/-- Errors of the `yubikey` crate (`yubikey::Error`). Only the
`AuthenticationError` variant is inspected by the embedded code
(yubikey.rs:41); all other variants are collapsed into `otherError`,
distinguished by an abstract code so that distinct errors stay distinct. -/
inductive YkError where
  | authenticationError
  | otherError (code : Nat)
deriving DecidableEq, Repr

/-- Errors of the `x509-certificate` crate used by `yubikey.rs`. The variants
carry their message strings as in the source. -/
inductive X509CertificateError where
  | other (msg : String)
  | unknownKeyAlgorithm (msg : String)
  | unknownDigestAlgorithm (msg : String)
  | unknownSignatureAlgorithm (msg : String)
deriving DecidableEq, Repr

/-- The crate error type `AppleCodesignError`, restricted to the variants the
embedded code constructs or inspects: `YubiKey` (yubikey.rs:41,228),
`SmartcardFailedAuthentication` (yubikey.rs:44,65,74), `PoisonedLock`
(yubikey.rs:99) and `CliBadArgument` (main.rs:495,528). `otherError` stands
for any remaining variant, distinguished by an abstract code. -/
inductive AppleCodesignError where
  | yubiKey (e : YkError)
  | smartcardFailedAuthentication
  | poisonedLock
  | cliBadArgument
  | otherError (code : Nat)
deriving DecidableEq, Repr

/-- Modelled from the spec: the definition of `AppleCodesignError` and its
`From X509CertificateError` conversion (used by the `?` operator at
yubikey.rs:52 and by `?` in `find_certificates` at yubikey.rs:120) live in the
crate's error module, which is not among the provided sources. The spec
(section 4.8) states that errors from the `pin_resolver` "are reported and
treated as `SmartcardAuth` failure (not retried)", so the conversion is
modelled as producing `smartcardFailedAuthentication`. No claim other than
the PIN-resolver one depends on the value this conversion produces. -/
def appleCodesignErrorFromX509 (_e : X509CertificateError) : AppleCodesignError :=
  .smartcardFailedAuthentication

/-- A PIN resolver callback (yubikey.rs:25). In the source this is
`fn() -> Result<Vec<u8>, AppleCodesignError>`: a nullary function that may
prompt a user, so successive calls may return different PINs. The shallow
embedding therefore indexes the callback by the number of prior invocations. -/
def PinCallback : Type := Nat → Except AppleCodesignError (List Nat)

/-- `MAX_ATTEMPTS` (yubikey.rs:32). -/
def MAX_ATTEMPTS : Nat := 3

/-- Result of one run of `attempt_authenticated_operation`, instrumented with
how often the card operation (`op`, i.e. `sign_data`) was invoked, how many of
those invocations succeeded (signatures actually emitted by the card), and how
often the PIN callback was invoked. `state` is the final card state. -/
structure AuthLoopOutcome (σ T : Type) where
  result : Except AppleCodesignError T
  state : σ
  opCalls : Nat
  opSuccesses : Nat
  pinCbCalls : Nat

/-- Loop body of `attempt_authenticated_operation` (yubikey.rs:34-72).
`attempt` is the 1-based loop counter of `for attempt in 1..MAX_ATTEMPTS + 1`;
`fuel` is the number of remaining iterations (`MAX_ATTEMPTS + 1 - attempt`),
so the `fuel = 0` case is the fall-through `Err(SmartcardFailedAuthentication)`
at yubikey.rs:74. `oc`, `okc`, `pc` accumulate operation calls, successful
operation calls and PIN-callback calls. The source matches the operation
error against exactly `AppleCodesignError::YubiKey(YkError::AuthenticationError)`
(yubikey.rs:41); the embedding tests equality against that value. On a PIN
verification failure the source logs and `continue`s, and on success it falls
through to the next iteration (yubikey.rs:54-62): both paths re-enter the loop
with the attempt counter incremented, which the recursive call reflects. -/
def attemptAuthenticatedOperationGo {σ T : Type}
    (op : σ → Except AppleCodesignError T × σ)
    (verifyPin : σ → List Nat → Bool × σ)
    (getDevicePin : Option PinCallback) :
    Nat → Nat → Nat → Nat → Nat → σ → AuthLoopOutcome σ T
  | _, 0, oc, okc, pc, s => ⟨.error .smartcardFailedAuthentication, s, oc, okc, pc⟩
  | attempt, fuel + 1, oc, okc, pc, s =>
    match (op s).1 with
    | .ok x => ⟨.ok x, (op s).2, oc + 1, okc + 1, pc⟩
    | .error e =>
      if e = .yubiKey .authenticationError then
        if attempt = MAX_ATTEMPTS then
          ⟨.error .smartcardFailedAuthentication, (op s).2, oc + 1, okc, pc⟩
        else
          match getDevicePin with
          | some pinCb =>
            match pinCb pc with
            | .error _ =>
              ⟨.error (appleCodesignErrorFromX509 (.other "error retrieving device pin")),
                (op s).2, oc + 1, okc, pc + 1⟩
            | .ok pin =>
              attemptAuthenticatedOperationGo op verifyPin getDevicePin
                (attempt + 1) fuel (oc + 1) okc (pc + 1) (verifyPin (op s).2 pin).2
          | none => ⟨.error .smartcardFailedAuthentication, (op s).2, oc + 1, okc, pc⟩
      else ⟨.error e, (op s).2, oc + 1, okc, pc⟩

/-- `attempt_authenticated_operation` (yubikey.rs:27-75): run the loop body
starting at attempt 1 with `MAX_ATTEMPTS` iterations available and all
instrumentation counters at zero. -/
def attemptAuthenticatedOperation {σ T : Type}
    (op : σ → Except AppleCodesignError T × σ)
    (verifyPin : σ → List Nat → Bool × σ)
    (getDevicePin : Option PinCallback) (s : σ) : AuthLoopOutcome σ T :=
  attemptAuthenticatedOperationGo op verifyPin getDevicePin 1 MAX_ATTEMPTS 0 0 0 s

/-! Concrete card used for the boundary-behaviour scenarios: its sign
operation fails with an authentication error until the correct PIN has been
verified, and it counts the signatures it emits. -/

/-- State of the scenario card: whether the correct PIN has been verified and
how many signatures its sign-data primitive has emitted. -/
structure ScenarioCard where
  pinVerified : Bool
  sigsEmitted : Nat
deriving DecidableEq, Repr

/-- The scenario card's correct PIN. -/
def scenarioCorrectPin : List Nat := [49, 50, 51, 52, 53, 54]

/-- A wrong PIN for the scenario card. -/
def scenarioWrongPin : List Nat := [57, 57, 57, 57, 57, 57]

/-- The scenario card's sign operation: an authentication error until the PIN
has been verified, afterwards a fixed signature, counted in the state. -/
def scenarioSignData (s : ScenarioCard) : Except AppleCodesignError (List Nat) × ScenarioCard :=
  if s.pinVerified then (.ok [171], { s with sigsEmitted := s.sigsEmitted + 1 })
  else (.error (.yubiKey .authenticationError), s)

/-- The scenario card's PIN verification: succeeds exactly on the correct PIN,
unlocking the card. -/
def scenarioVerifyPin (s : ScenarioCard) (pin : List Nat) : Bool × ScenarioCard :=
  if pin = scenarioCorrectPin then (true, { s with pinVerified := true }) else (false, s)

/-- PIN resolver returning the wrong PIN on its first two invocations and the
correct PIN on its third (the schedule of claim C1). -/
def scenarioResolverWrongWrongCorrect : PinCallback := fun n =>
  if n < 2 then .ok scenarioWrongPin else .ok scenarioCorrectPin

/-- PIN resolver returning the wrong PIN on its first invocation and the
correct PIN afterwards. -/
def scenarioResolverWrongCorrect : PinCallback := fun n =>
  if n = 0 then .ok scenarioWrongPin else .ok scenarioCorrectPin

/-- The authenticated-operation run of claim C1: locked scenario card,
resolver wrong on invocations one and two, correct on the third. -/
def scenarioRunWrongWrongCorrect : AuthLoopOutcome ScenarioCard (List Nat) :=
  attemptAuthenticatedOperation scenarioSignData scenarioVerifyPin
    (some scenarioResolverWrongWrongCorrect) ⟨false, 0⟩

/-- The authenticated-operation run with the resolver wrong once and then
correct, on the locked scenario card. -/
def scenarioRunWrongCorrect : AuthLoopOutcome ScenarioCard (List Nat) :=
  attemptAuthenticatedOperation scenarioSignData scenarioVerifyPin
    (some scenarioResolverWrongCorrect) ⟨false, 0⟩

/-! Data model for `CertificateSigner::sign` (yubikey.rs:161-235) and
`YubiKey::find_certificates` / `get_certificate_signer` (yubikey.rs:103-148). -/

/-- `x509_certificate::EcdsaCurve`. -/
inductive EcdsaCurve where
  | secp256r1
  | secp384r1
deriving DecidableEq, Repr

/-- `x509_certificate::KeyAlgorithm`. -/
inductive KeyAlgorithm where
  | rsa
  | ed25519
  | ecdsa (curve : EcdsaCurve)
deriving DecidableEq, Repr

/-- `yubikey::piv::AlgorithmId`, restricted to the variants the source
constructs (yubikey.rs:171-190). -/
inductive AlgorithmId where
  | rsa1024
  | rsa2048
  | eccP256
  | eccP384
deriving DecidableEq, Repr

/-- Digest algorithms of the `x509-certificate` crate. -/
inductive DigestAlgorithm where
  | sha1
  | sha256
  | sha384
  | sha512
deriving DecidableEq, Repr

/-- `x509_certificate::SignatureAlgorithm`. -/
inductive SignatureAlgorithm where
  | rsaSha1
  | rsaSha256
  | rsaSha384
  | rsaSha512
  | ecdsaSha256
  | ecdsaSha384
  | ed25519
deriving DecidableEq, Repr

/-- Modelled from the spec: `SignatureAlgorithm::digest_algorithm` of the
`x509-certificate` crate (called at yubikey.rs:201), which is repository code
not among the provided sources. The spec says sign uses "the digest algorithm
derived from the certificate's signature algorithm"; each `...ShaN` signature
algorithm yields the `shaN` digest, and Ed25519 (no prehash) yields none. -/
def SignatureAlgorithm.digestAlgorithm : SignatureAlgorithm → Option DigestAlgorithm
  | .rsaSha1 => some .sha1
  | .rsaSha256 => some .sha256
  | .rsaSha384 => some .sha384
  | .rsaSha512 => some .sha512
  | .ecdsaSha256 => some .sha256
  | .ecdsaSha384 => some .sha384
  | .ed25519 => none

/-- The view of `x509_certificate::CapturedX509Certificate` the embedded code
reads: `key_algorithm()` (yubikey.rs:165), `rsa_public_key_data()?.modulus`
(yubikey.rs:172) and `signature_algorithm()` (yubikey.rs:193).
`keyAlgorithmOidDebug` stands for the Debug rendering of
`key_algorithm_oid()` used in the error message at yubikey.rs:166-169. -/
structure CapturedX509Certificate where
  keyAlgorithm : Option KeyAlgorithm
  rsaPublicKeyModulus : Except X509CertificateError (List Nat)
  signatureAlgorithm : Option SignatureAlgorithm
  keyAlgorithmOidDebug : String

/-- The raw device handle `yubikey::YubiKey`. Its hardware behaviour is
abstracted as oracles over a card-state type `σ`: `pivKeySlots` models the
slots reported by `piv_keys()` (yubikey.rs:109-113), `readCertificate` models
`Certificate::read` returning DER bytes (yubikey.rs:118-120), `signData`
models `yubikey::piv::sign_data` (yubikey.rs:227) and `verifyPin` models
`verify_pin` (yubikey.rs:54). `st` is the current card state. -/
structure RawYubiKey (σ : Type) where
  pivKeySlots : Except YkError (List Nat)
  readCertificate : Nat → Except YkError (List Nat)
  signData : σ → List Nat → AlgorithmId → Nat → Except YkError (List Nat) × σ
  verifyPin : σ → List Nat → Bool × σ
  st : σ

/-- The `YubiKey` wrapper struct (yubikey.rs:78-81). The `Arc Mutex` is
modelled away: the embedding is single-threaded and lock acquisition always
succeeds, so the handle is held by value. -/
structure YubiKey (σ : Type) where
  yk : RawYubiKey σ
  pinCallback : Option PinCallback

/-- The `CertificateSigner` struct (yubikey.rs:154-159). -/
structure CertificateSigner (σ : Type) where
  yk : RawYubiKey σ
  slot : Nat
  cert : CapturedX509Certificate
  pinCallback : Option PinCallback

/-- Reading and parsing the certificate of one slot: `Certificate::read`
followed by `CapturedX509Certificate::from_der` (yubikey.rs:118-120), with
the `?` conversions of the two error types. `fromDer` abstracts the DER
parser of the `x509-certificate` crate. -/
def readSlotCertificate {σ : Type}
    (fromDer : List Nat → Except X509CertificateError CapturedX509Certificate)
    (yk : RawYubiKey σ) (slot : Nat) : Except AppleCodesignError CapturedX509Certificate :=
  match yk.readCertificate slot with
  | .error e => .error (.yubiKey e)
  | .ok der =>
    match fromDer der with
    | .error e => .error (appleCodesignErrorFromX509 e)
    | .ok cert => .ok cert

/-- The `for slot in slots` loop of `find_certificates` (yubikey.rs:117-123):
read and parse each slot's certificate in order, propagating the first
error. -/
def findCertificatesGo {σ : Type}
    (fromDer : List Nat → Except X509CertificateError CapturedX509Certificate)
    (yk : RawYubiKey σ) :
    List Nat → Except AppleCodesignError (List (Nat × CapturedX509Certificate))
  | [] => .ok []
  | slot :: rest =>
    match readSlotCertificate fromDer yk slot with
    | .error e => .error e
    | .ok cert =>
      match findCertificatesGo fromDer yk rest with
      | .error e => .error e
      | .ok tail => .ok ((slot, cert) :: tail)

/-- `YubiKey::find_certificates` (yubikey.rs:103-126). -/
def YubiKey.findCertificates {σ : Type}
    (self : YubiKey σ)
    (fromDer : List Nat → Except X509CertificateError CapturedX509Certificate) :
    Except AppleCodesignError (List (Nat × CapturedX509Certificate)) :=
  match self.yk.pivKeySlots with
  | .error e => .error (.yubiKey e)
  | .ok slots => findCertificatesGo fromDer self.yk slots

/-- `YubiKey::get_certificate_signer` (yubikey.rs:129-148): find the first
certificate whose slot matches and build a signer sharing the device handle
and the PIN callback. -/
def YubiKey.getCertificateSigner {σ : Type}
    (self : YubiKey σ)
    (fromDer : List Nat → Except X509CertificateError CapturedX509Certificate)
    (slotId : Nat) : Except AppleCodesignError (Option (CertificateSigner σ)) :=
  match self.findCertificates fromDer with
  | .error e => .error e
  | .ok certs =>
    .ok (certs.findSome? fun p =>
      if p.1 = slotId then
        some { yk := self.yk, slot := slotId, cert := p.2, pinCallback := self.pinCallback }
      else none)

/-- RSA key-size classification from the byte length of the certificate's
public modulus (yubikey.rs:172-180). -/
def rsaAlgorithmId (modulus : List Nat) : Except X509CertificateError AlgorithmId :=
  if modulus.length = 129 then .ok .rsa1024
  else if modulus.length = 257 then .ok .rsa2048
  else .error (.other "unable to determine RSA key algorithm")

/-- The `algorithm_id` computation of `CertificateSigner::sign`
(yubikey.rs:163-190): resolve the key algorithm, classify RSA keys by modulus
length, reject Ed25519, and map the ECDSA curves. -/
def CertificateSigner.algorithmId {σ : Type} (self : CertificateSigner σ) :
    Except X509CertificateError AlgorithmId :=
  match self.cert.keyAlgorithm with
  | none => .error (.unknownKeyAlgorithm self.cert.keyAlgorithmOidDebug)
  | some .rsa =>
    match self.cert.rsaPublicKeyModulus with
    | .error e => .error e
    | .ok modulus => rsaAlgorithmId modulus
  | some .ed25519 => .error (.unknownKeyAlgorithm "unable to use ed25519 keys with smartcards")
  | some (.ecdsa .secp256r1) => .ok .eccP256
  | some (.ecdsa .secp384r1) => .ok .eccP384

/-- Modelled from the spec: `DigestAlgorithm::rsa_pkcs1_encode` of the
`x509-certificate` crate (called at yubikey.rs:209-210), repository code not
among the provided sources. Per spec section 4.1 it wraps the digest of the
message in the DER DigestInfo prefix and pads with `0x00 0x01 0xff…0xff 0x00`
to `k_bits/8` bytes. `digestData` abstracts the hash function and
`digestInfoHeader` the DER DigestInfo prefix bytes of each hash kind. -/
def rsaPkcs1Encode (digestData : DigestAlgorithm → List Nat → List Nat)
    (digestInfoHeader : DigestAlgorithm → List Nat)
    (da : DigestAlgorithm) (message : List Nat) (width : Nat) : List Nat :=
  let t := digestInfoHeader da ++ digestData da message
  [0, 1] ++ List.replicate (width - (t.length + 3)) 255 ++ [0] ++ t

/-- The bytes `CertificateSigner::sign` hands to `sign_data` for a given
algorithm id and digest algorithm (yubikey.rs:208-213): the PKCS#1 v1.5
encoding at the classified modulus width for RSA, the raw digest for ECDSA. -/
def expectedSignPayload (digestData : DigestAlgorithm → List Nat → List Nat)
    (digestInfoHeader : DigestAlgorithm → List Nat)
    (algorithmId : AlgorithmId) (da : DigestAlgorithm) (message : List Nat) : List Nat :=
  match algorithmId with
  | .rsa1024 => rsaPkcs1Encode digestData digestInfoHeader da message (1024 / 8)
  | .rsa2048 => rsaPkcs1Encode digestData digestInfoHeader da message (2048 / 8)
  | .eccP256 => digestData da message
  | .eccP384 => digestData da message

/-- The operation closure `CertificateSigner::sign` hands to
`attempt_authenticated_operation` (yubikey.rs:226-231): call `sign_data` on
the card with the pre-computed digest, map card errors into
`AppleCodesignError::YubiKey` and pair a signature with the certificate's
signature algorithm. The loop state carries, besides the card state, the
instrumentation log of byte strings handed to `sign_data`. -/
def signOp {σ : Type} (yk : RawYubiKey σ) (slot : Nat) (digest : List Nat)
    (algorithmId : AlgorithmId) (sa : SignatureAlgorithm) :
    σ × List (List Nat) →
      Except AppleCodesignError (List Nat × SignatureAlgorithm) × (σ × List (List Nat)) :=
  fun s =>
    (((yk.signData s.1 digest algorithmId slot).1.mapError AppleCodesignError.yubiKey).map
        fun signature => (signature, sa),
      ((yk.signData s.1 digest algorithmId slot).2, s.2 ++ [digest]))

/-- The PIN verification step of `sign`, lifted to the instrumented loop
state (the log is untouched). -/
def signVp {σ : Type} (yk : RawYubiKey σ) :
    σ × List (List Nat) → List Nat → Bool × (σ × List (List Nat)) :=
  fun s pin => ((yk.verifyPin s.1 pin).1, ((yk.verifyPin s.1 pin).2, s.2))

/-- Result of one run of `CertificateSigner::sign`, instrumented like
`AuthLoopOutcome` and additionally logging in `requests` the byte strings
handed to the card's `sign_data` primitive, in call order. `cardState` is the
final card state. -/
structure SignRun (σ : Type) where
  result : Except X509CertificateError (List Nat × SignatureAlgorithm)
  cardState : σ
  opCalls : Nat
  opSuccesses : Nat
  pinCbCalls : Nat
  requests : List (List Nat)

/-- `CertificateSigner::sign` (yubikey.rs:162-235): resolve the key and
signature algorithms, pre-compute the digest (PKCS#1 v1.5-padded for RSA, raw
for ECDSA), then run `attempt_authenticated_operation` with the operation
that calls `sign_data` on the card and pairs the signature with the
certificate's signature algorithm (yubikey.rs:224-233). The lock acquisition
at yubikey.rs:215-218 always succeeds in this single-threaded model. Loop
errors are wrapped as `X509CertificateError::Other` with the source's
"code sign error" Debug formatting approximated by the derived printer
(yubikey.rs:234). The loop state is instrumented with the log of byte
strings handed to `sign_data`. -/
def CertificateSigner.sign {σ : Type} (self : CertificateSigner σ)
    (digestData : DigestAlgorithm → List Nat → List Nat)
    (digestInfoHeader : DigestAlgorithm → List Nat)
    (message : List Nat) : SignRun σ :=
  match self.algorithmId with
  | .error e => ⟨.error e, self.yk.st, 0, 0, 0, []⟩
  | .ok algorithmId =>
    match self.cert.signatureAlgorithm with
    | none =>
      ⟨.error (.unknownDigestAlgorithm "failed to resolve digest algorithm for certificate"),
        self.yk.st, 0, 0, 0, []⟩
    | some signatureAlgorithm =>
      match signatureAlgorithm.digestAlgorithm with
      | none =>
        ⟨.error
            (.unknownDigestAlgorithm "unable to resolve digest algorithm from signature algorithm"),
          self.yk.st, 0, 0, 0, []⟩
      | some da =>
        let digest := expectedSignPayload digestData digestInfoHeader algorithmId da message
        let outcome :=
          attemptAuthenticatedOperation
            (signOp self.yk self.slot digest algorithmId signatureAlgorithm)
            (signVp self.yk)
            self.pinCallback
            (self.yk.st, [])
        ⟨outcome.result.mapError fun e => .other ("code sign error: " ++ reprStr e),
          outcome.state.1, outcome.opCalls, outcome.opSuccesses, outcome.pinCbCalls,
          outcome.state.2⟩

/-! The timestamp-server configuration of `command_sign`
(tugger-apple-codesign/src/main.rs). -/

/-- `APPLE_TIMESTAMP_URL` (main.rs:159). -/
def APPLE_TIMESTAMP_URL : String := "http://timestamp.apple.com/ts01"

/-- The value `args.value_of("timestamp_url")` yields inside `command_sign`
(main.rs:493-495): the `timestamp_url` argument is declared with
`default_value(APPLE_TIMESTAMP_URL)` (main.rs:769-772), so per clap's
documented semantics the user-supplied value is returned when present and the
declared default otherwise (the `CliBadArgument` branch of the `ok_or` is
unreachable). -/
def timestampUrlArgValue (cliValue : Option String) : String :=
  cliValue.getD APPLE_TIMESTAMP_URL

/-- The signer configuration `command_sign` establishes that is relevant to
timestamping: whether `signer.signing_key` was called (main.rs:546) and the
URL passed to `signer.time_stamp_url`, if any (main.rs:548-551). -/
structure SignerConfig where
  signingKeyRegistered : Bool
  timeStampUrl : Option String
deriving DecidableEq, Repr

/-- The fragment of `command_sign` (main.rs:493-552) that decides the
timestamp configuration. Inputs: the raw `--timestamp-url` argument, the
PRIVATE KEY blocks and the CERTIFICATE blocks gathered from the PEM sources.
Mirrors the source: the sentinel value "none" maps the URL to `None`
(main.rs:496-500); more than one private key aborts with `CliBadArgument`
(main.rs:525-528); with no private key the `if let Some(signing_key)` block
is skipped, so no key is registered and no timestamp server configured; with
one private key a certificate is required (main.rs:536-539), the key is
registered and the timestamp server configured only when a URL remains. Key
and certificate DER parsing, which always precedes registration and whose
failures abort the command before any configuration, is abstracted as
successful. -/
def commandSignConfig (cliTimestampUrl : Option String)
    (privateKeys : List (List Nat)) (publicCertificates : List (List Nat)) :
    Except AppleCodesignError SignerConfig :=
  let tsArg := timestampUrlArgValue cliTimestampUrl
  let timestampUrl : Option String := if tsArg = "none" then none else some tsArg
  if privateKeys.length > 1 then .error .cliBadArgument
  else
    match privateKeys with
    | [] => .ok ⟨false, none⟩
    | _key :: _ =>
      if publicCertificates.isEmpty then .error .cliBadArgument
      else .ok ⟨true, timestampUrl⟩

/-! Concrete fixtures used by the witnesses. -/

/-- A trivial card state for witness devices. -/
def trivialCardState : Unit := ()

/-- A witness device whose card signs immediately (no PIN needed): slots 1
and 2 hold keys, reading a slot's certificate yields a one-byte DER tag, and
`sign_data` emits a fixed signature. -/
def witnessDevice : RawYubiKey Unit where
  pivKeySlots := .ok [1, 2]
  readCertificate := fun slot => .ok [slot]
  signData := fun s _ _ _ => (.ok [7], s)
  verifyPin := fun s _ => (true, s)
  st := ()

/-- A witness device whose card always refuses with an authentication
error. -/
def lockedDevice : RawYubiKey Unit where
  pivKeySlots := .ok [1]
  readCertificate := fun slot => .ok [slot]
  signData := fun s _ _ _ => (.error .authenticationError, s)
  verifyPin := fun s _ => (true, s)
  st := ()

/-- An RSA certificate whose modulus is 129 bytes long (1024-bit with the
leading zero octet). -/
def rsaCert129 : CapturedX509Certificate where
  keyAlgorithm := some .rsa
  rsaPublicKeyModulus := .ok (List.replicate 129 0)
  signatureAlgorithm := some .rsaSha256
  keyAlgorithmOidDebug := "1.2.840.113549.1.1.1"

/-- An RSA certificate whose modulus is 257 bytes long (2048-bit with the
leading zero octet). -/
def rsaCert257 : CapturedX509Certificate where
  keyAlgorithm := some .rsa
  rsaPublicKeyModulus := .ok (List.replicate 257 0)
  signatureAlgorithm := some .rsaSha256
  keyAlgorithmOidDebug := "1.2.840.113549.1.1.1"

/-- An RSA certificate with a 384-byte modulus (a 3072-bit key, which the
classification table does not cover). -/
def rsaCert384 : CapturedX509Certificate where
  keyAlgorithm := some .rsa
  rsaPublicKeyModulus := .ok (List.replicate 384 0)
  signatureAlgorithm := some .rsaSha256
  keyAlgorithmOidDebug := "1.2.840.113549.1.1.1"

/-- An Ed25519 certificate. -/
def edCert : CapturedX509Certificate where
  keyAlgorithm := some .ed25519
  rsaPublicKeyModulus := .error (.other "not an RSA key")
  signatureAlgorithm := some .ed25519
  keyAlgorithmOidDebug := "1.3.101.112"

/-- A certificate signer over the witness device holding the 129-byte-modulus
RSA certificate in slot 1. -/
def witnessSigner129 : CertificateSigner Unit where
  yk := witnessDevice
  slot := 1
  cert := rsaCert129
  pinCallback := none

/-- A certificate signer holding the 257-byte-modulus RSA certificate. -/
def witnessSigner257 : CertificateSigner Unit where
  yk := witnessDevice
  slot := 1
  cert := rsaCert257
  pinCallback := none

/-- A certificate signer holding the unclassifiable 384-byte-modulus RSA
certificate. -/
def witnessSigner384 : CertificateSigner Unit where
  yk := witnessDevice
  slot := 1
  cert := rsaCert384
  pinCallback := none

/-- A certificate signer holding the Ed25519 certificate. -/
def witnessSignerEd : CertificateSigner Unit where
  yk := witnessDevice
  slot := 1
  cert := edCert
  pinCallback := none

/-- A witness DER parser mapping any DER bytes to the 129-byte-modulus RSA
certificate. -/
def witnessFromDer : List Nat → Except X509CertificateError CapturedX509Certificate :=
  fun _ => .ok rsaCert129

/-- A witness `YubiKey` wrapper around the witness device with no PIN
callback. -/
def witnessYubiKey : YubiKey Unit where
  yk := witnessDevice
  pinCallback := none

/-- A witness hash function: every digest is 32 bytes of ones. -/
def witnessDigestData : DigestAlgorithm → List Nat → List Nat :=
  fun _ _ => List.replicate 32 1

/-- A witness DER DigestInfo prefix: 19 bytes of twos. -/
def witnessDigestInfoHeader : DigestAlgorithm → List Nat :=
  fun _ => List.replicate 19 2

/-! Helper lemmas about the authentication loop. -/

/-- The loop body invokes the card operation at most once per remaining
iteration. -/
theorem authGo_opCalls_le {σ T : Type} (op : σ → Except AppleCodesignError T × σ)
    (vp : σ → List Nat → Bool × σ) (cb : Option PinCallback) :
    ∀ (fuel attempt oc okc pc : Nat) (s : σ),
      (attemptAuthenticatedOperationGo op vp cb attempt fuel oc okc pc s).opCalls ≤ oc + fuel := by
  intro fuel
  induction fuel with
  | zero =>
    intro attempt oc okc pc s
    exact (by omega : oc ≤ oc + 0)
  | succ fuel ih =>
    intro attempt oc okc pc s
    simp only [attemptAuthenticatedOperationGo]
    cases hop : (op s).1 with
    | ok x => exact (by omega : oc + 1 ≤ oc + (fuel + 1))
    | error e =>
      dsimp only
      by_cases he : e = .yubiKey .authenticationError
      · subst he
        rw [if_pos rfl]
        by_cases ha : attempt = MAX_ATTEMPTS
        · rw [if_pos ha]
          exact (by omega : oc + 1 ≤ oc + (fuel + 1))
        · rw [if_neg ha]
          cases cb with
          | none => exact (by omega : oc + 1 ≤ oc + (fuel + 1))
          | some pinCb =>
            cases hcb : pinCb pc with
            | error e2 =>
              simp only [hcb]
              exact (by omega : oc + 1 ≤ oc + (fuel + 1))
            | ok pin =>
              simp only [hcb]
              have := ih (attempt + 1) (oc + 1) okc (pc + 1) (vp (op s).2 pin).2
              omega
      · rw [if_neg he]
        exact (by omega : oc + 1 ≤ oc + (fuel + 1))

/-- The operation-call counter never decreases. -/
theorem authGo_opCalls_ge {σ T : Type} (op : σ → Except AppleCodesignError T × σ)
    (vp : σ → List Nat → Bool × σ) (cb : Option PinCallback) :
    ∀ (fuel attempt oc okc pc : Nat) (s : σ),
      oc ≤ (attemptAuthenticatedOperationGo op vp cb attempt fuel oc okc pc s).opCalls := by
  intro fuel
  induction fuel with
  | zero =>
    intro attempt oc okc pc s
    exact Nat.le_refl oc
  | succ fuel ih =>
    intro attempt oc okc pc s
    simp only [attemptAuthenticatedOperationGo]
    cases hop : (op s).1 with
    | ok x => exact (by omega : oc ≤ oc + 1)
    | error e =>
      dsimp only
      by_cases he : e = .yubiKey .authenticationError
      · subst he
        rw [if_pos rfl]
        by_cases ha : attempt = MAX_ATTEMPTS
        · rw [if_pos ha]
          exact (by omega : oc ≤ oc + 1)
        · rw [if_neg ha]
          cases cb with
          | none => exact (by omega : oc ≤ oc + 1)
          | some pinCb =>
            cases hcb : pinCb pc with
            | error e2 =>
              simp only [hcb]
              exact (by omega : oc ≤ oc + 1)
            | ok pin =>
              simp only [hcb]
              have := ih (attempt + 1) (oc + 1) okc (pc + 1) (vp (op s).2 pin).2
              omega
      · rw [if_neg he]
        exact (by omega : oc ≤ oc + 1)

/-- If the card operation fails with an authentication error on every state,
the loop body can only end in `SmartcardFailedAuthentication`. -/
theorem authGo_allAuth {σ T : Type} (op : σ → Except AppleCodesignError T × σ)
    (vp : σ → List Nat → Bool × σ) (cb : Option PinCallback)
    (hall : ∀ st : σ, (op st).1 = .error (.yubiKey .authenticationError)) :
    ∀ (fuel attempt oc okc pc : Nat) (s : σ),
      (attemptAuthenticatedOperationGo op vp cb attempt fuel oc okc pc s).result =
        .error .smartcardFailedAuthentication := by
  intro fuel
  induction fuel with
  | zero =>
    intro attempt oc okc pc s
    rfl
  | succ fuel ih =>
    intro attempt oc okc pc s
    simp only [attemptAuthenticatedOperationGo, hall s]
    rw [if_pos trivial]
    by_cases ha : attempt = MAX_ATTEMPTS
    · rw [if_pos ha]
    · rw [if_neg ha]
      cases cb with
      | none => rfl
      | some pinCb =>
        cases hcb : pinCb pc with
        | error e2 => simp only [hcb]; rfl
        | ok pin =>
          simp only [hcb]
          exact ih (attempt + 1) (oc + 1) okc (pc + 1) (vp (op s).2 pin).2

/-- When the operation appends one log entry `d` per call and PIN
verification preserves the log, the final log extends the initial one by one
copy of `d` per operation call. -/
theorem authGo_log {σ R T : Type}
    (op : σ × List R → Except AppleCodesignError T × (σ × List R))
    (vp : σ × List R → List Nat → Bool × (σ × List R)) (cb : Option PinCallback) (d : R)
    (hop : ∀ s, ((op s).2).2 = s.2 ++ [d])
    (hvp : ∀ s pin, ((vp s pin).2).2 = s.2) :
    ∀ (fuel attempt oc okc pc : Nat) (s : σ × List R),
      (attemptAuthenticatedOperationGo op vp cb attempt fuel oc okc pc s).state.2 =
        s.2 ++ List.replicate
          ((attemptAuthenticatedOperationGo op vp cb attempt fuel oc okc pc s).opCalls - oc) d := by
  intro fuel
  induction fuel with
  | zero =>
    intro attempt oc okc pc s
    show s.2 = s.2 ++ List.replicate (oc - oc) d
    simp
  | succ fuel ih =>
    intro attempt oc okc pc s
    simp only [attemptAuthenticatedOperationGo]
    cases hopc : (op s).1 with
    | ok x =>
      show ((op s).2).2 = s.2 ++ List.replicate (oc + 1 - oc) d
      simp [hop s]
    | error e =>
      dsimp only
      by_cases he : e = .yubiKey .authenticationError
      · subst he
        rw [if_pos rfl]
        by_cases ha : attempt = MAX_ATTEMPTS
        · rw [if_pos ha]
          show ((op s).2).2 = s.2 ++ List.replicate (oc + 1 - oc) d
          simp [hop s]
        · rw [if_neg ha]
          cases cb with
          | none =>
            show ((op s).2).2 = s.2 ++ List.replicate (oc + 1 - oc) d
            simp [hop s]
          | some pinCb =>
            cases hcb : pinCb pc with
            | error e2 =>
              simp only [hcb]
              show ((op s).2).2 = s.2 ++ List.replicate (oc + 1 - oc) d
              simp [hop s]
            | ok pin =>
              simp only [hcb]
              have hge := authGo_opCalls_ge op vp (some pinCb) fuel (attempt + 1) (oc + 1) okc
                (pc + 1) (vp (op s).2 pin).2
              have hlog := ih (attempt + 1) (oc + 1) okc (pc + 1) (vp (op s).2 pin).2
              rw [hlog, hvp, hop s]
              have hcount :
                  (attemptAuthenticatedOperationGo op vp (some pinCb) (attempt + 1) fuel (oc + 1)
                      okc (pc + 1) (vp (op s).2 pin).2).opCalls - oc =
                    ((attemptAuthenticatedOperationGo op vp (some pinCb) (attempt + 1) fuel (oc + 1)
                        okc (pc + 1) (vp (op s).2 pin).2).opCalls - (oc + 1)) + 1 := by omega
              rw [hcount, List.replicate_succ, List.append_assoc]
              rfl
      · rw [if_neg he]
        show ((op s).2).2 = s.2 ++ List.replicate (oc + 1 - oc) d
        simp [hop s]

/-- C1, counterexample: on a card whose sign operation fails with an
authentication error until the correct PIN has been verified, with the PIN
resolver returning a wrong PIN on its first two invocations and the correct
PIN on its third, the sign call does NOT succeed (it fails with
`SmartcardFailedAuthentication`) and the card's sign-data primitive emits no
signature, contradicting the claim: the third loop attempt gives up at
`attempt == MAX_ATTEMPTS` before ever invoking the resolver a third time. -/
theorem c1_piv_pin_retry_counterexample :
    scenarioRunWrongWrongCorrect.result = .error .smartcardFailedAuthentication ∧
    scenarioRunWrongWrongCorrect.state.sigsEmitted = 0 ∧
    scenarioRunWrongWrongCorrect.opCalls = 3 ∧
    scenarioRunWrongWrongCorrect.pinCbCalls = 2 :=
  ⟨rfl, rfl, rfl, rfl⟩

/-- C1 (amended): on a card whose sign operation fails with an authentication
error until the correct PIN has been verified, with the PIN resolver
returning a wrong PIN on its first invocation and the correct PIN on its
second, the sign call succeeds and the card's sign-data primitive emits
exactly one signature. -/
theorem c1_piv_pin_retry_amended :
    scenarioRunWrongCorrect.result = .ok [171] ∧
    scenarioRunWrongCorrect.state.sigsEmitted = 1 ∧
    scenarioRunWrongCorrect.opCalls = 3 ∧
    scenarioRunWrongCorrect.pinCbCalls = 2 :=
  ⟨rfl, rfl, rfl, rfl⟩

/-- C2: `MAX_ATTEMPTS` is 3; every run of `attempt_authenticated_operation`
invokes the card's operation at most `MAX_ATTEMPTS` times, whatever the card,
PIN verifier and resolver do (so a fourth sign attempt never occurs); and if
the operation fails with an authentication error on every attempt, the run
returns `SmartcardFailedAuthentication`. -/
theorem c2_max_attempts :
    MAX_ATTEMPTS = 3 ∧
    (∀ (σ T : Type) (op : σ → Except AppleCodesignError T × σ)
        (vp : σ → List Nat → Bool × σ) (cb : Option PinCallback) (s : σ),
        (attemptAuthenticatedOperation op vp cb s).opCalls ≤ MAX_ATTEMPTS) ∧
    (∀ (σ T : Type) (op : σ → Except AppleCodesignError T × σ)
        (vp : σ → List Nat → Bool × σ) (cb : Option PinCallback) (s : σ),
        (∀ st : σ, (op st).1 = .error (.yubiKey .authenticationError)) →
        (attemptAuthenticatedOperation op vp cb s).result =
          .error .smartcardFailedAuthentication) := by
  refine ⟨rfl, ?_, ?_⟩
  · intro σ T op vp cb s
    have := authGo_opCalls_le op vp cb MAX_ATTEMPTS 1 0 0 0 s
    simpa [attemptAuthenticatedOperation] using this
  · intro σ T op vp cb s hall
    exact authGo_allAuth op vp cb hall MAX_ATTEMPTS 1 0 0 0 s

/-- C2, witness: on an always-refusing card with no resolver, the bound and
the failure result hold concretely. -/
theorem c2_max_attempts_witness :
    (attemptAuthenticatedOperation
        (fun s : Unit => ((.error (.yubiKey .authenticationError) :
          Except AppleCodesignError (List Nat)), s))
        (fun s _ => (true, s)) none ()).opCalls ≤ MAX_ATTEMPTS ∧
    (attemptAuthenticatedOperation
        (fun s : Unit => ((.error (.yubiKey .authenticationError) :
          Except AppleCodesignError (List Nat)), s))
        (fun s _ => (true, s)) none ()).result = .error .smartcardFailedAuthentication :=
  ⟨c2_max_attempts.2.1 Unit (List Nat) _ _ none (),
   c2_max_attempts.2.2 Unit (List Nat) _ _ none () (fun _ => rfl)⟩

/-- C3: if the first sign attempt fails with an authentication error and no
PIN resolver is configured, the run returns `SmartcardFailedAuthentication`
immediately: exactly one operation call, no successes, and no PIN prompt. -/
theorem c3_no_resolver {σ T : Type} (op : σ → Except AppleCodesignError T × σ)
    (vp : σ → List Nat → Bool × σ) (s : σ)
    (h : (op s).1 = .error (.yubiKey .authenticationError)) :
    (attemptAuthenticatedOperation op vp none s).result =
      .error .smartcardFailedAuthentication ∧
    (attemptAuthenticatedOperation op vp none s).opCalls = 1 ∧
    (attemptAuthenticatedOperation op vp none s).pinCbCalls = 0 ∧
    (attemptAuthenticatedOperation op vp none s).opSuccesses = 0 := by
  simp only [attemptAuthenticatedOperation, MAX_ATTEMPTS]
  rw [show (3 : Nat) = 2 + 1 from rfl]
  simp only [attemptAuthenticatedOperationGo, h]
  simp [MAX_ATTEMPTS]

/-- C3, witness: the locked witness device with no resolver fails immediately
with a single attempt. -/
theorem c3_no_resolver_witness :
    (attemptAuthenticatedOperation
        (fun s : Unit => (((lockedDevice.signData s [1] .rsa1024 1).1.mapError
          AppleCodesignError.yubiKey), (lockedDevice.signData s [1] .rsa1024 1).2))
        (fun s pin => lockedDevice.verifyPin s pin) none ()).result =
      .error .smartcardFailedAuthentication ∧
    (attemptAuthenticatedOperation
        (fun s : Unit => (((lockedDevice.signData s [1] .rsa1024 1).1.mapError
          AppleCodesignError.yubiKey), (lockedDevice.signData s [1] .rsa1024 1).2))
        (fun s pin => lockedDevice.verifyPin s pin) none ()).opCalls = 1 := by
  have := c3_no_resolver
    (fun s : Unit => (((lockedDevice.signData s [1] .rsa1024 1).1.mapError
      AppleCodesignError.yubiKey), (lockedDevice.signData s [1] .rsa1024 1).2))
    (fun s pin => lockedDevice.verifyPin s pin) () rfl
  exact ⟨this.1, this.2.1⟩

/-- C4: if the first sign attempt fails with an authentication error and the
configured PIN resolver itself returns an error, the run stops without
retrying the sign operation (one operation call, one resolver call) and the
resolver's failure is reported as the `SmartcardFailedAuthentication`
error. -/
theorem c4_resolver_error {σ T : Type} (op : σ → Except AppleCodesignError T × σ)
    (vp : σ → List Nat → Bool × σ) (cb : PinCallback) (s : σ) (e : AppleCodesignError)
    (h : (op s).1 = .error (.yubiKey .authenticationError))
    (hcb : cb 0 = .error e) :
    (attemptAuthenticatedOperation op vp (some cb) s).result =
      .error .smartcardFailedAuthentication ∧
    (attemptAuthenticatedOperation op vp (some cb) s).opCalls = 1 ∧
    (attemptAuthenticatedOperation op vp (some cb) s).pinCbCalls = 1 := by
  simp only [attemptAuthenticatedOperation, MAX_ATTEMPTS]
  rw [show (3 : Nat) = 2 + 1 from rfl]
  simp only [attemptAuthenticatedOperationGo, h, hcb]
  simp [MAX_ATTEMPTS, appleCodesignErrorFromX509]

/-- C4, witness: on the locked witness device with a resolver that always
fails, the run stops after one attempt and one resolver invocation. -/
theorem c4_resolver_error_witness :
    (attemptAuthenticatedOperation
        (fun s : Unit => ((.error (.yubiKey .authenticationError) :
          Except AppleCodesignError (List Nat)), s))
        (fun s _ => (true, s))
        (some (fun _ => .error .poisonedLock)) ()).result =
      .error .smartcardFailedAuthentication ∧
    (attemptAuthenticatedOperation
        (fun s : Unit => ((.error (.yubiKey .authenticationError) :
          Except AppleCodesignError (List Nat)), s))
        (fun s _ => (true, s))
        (some (fun _ => .error .poisonedLock)) ()).opCalls = 1 := by
  have := c4_resolver_error
    (fun s : Unit => ((.error (.yubiKey .authenticationError) :
      Except AppleCodesignError (List Nat)), s))
    (fun s _ => (true, s)) (fun _ => .error .poisonedLock) () .poisonedLock rfl rfl
  exact ⟨this.1, this.2.1⟩

/-- C5: when signing with an RSA key, the key size is classified solely from
the byte length of the certificate's public modulus: 129 bytes yields the
1024-bit algorithm, 257 bytes the 2048-bit algorithm, and for every other
modulus length the sign invocation fails with the classification error
without ever invoking the card's sign-data primitive. -/
theorem c5_rsa_modulus_classification :
    (∀ (σ : Type) (self : CertificateSigner σ) (modulus : List Nat),
        self.cert.keyAlgorithm = some .rsa →
        self.cert.rsaPublicKeyModulus = .ok modulus →
        modulus.length = 129 →
        self.algorithmId = .ok .rsa1024) ∧
    (∀ (σ : Type) (self : CertificateSigner σ) (modulus : List Nat),
        self.cert.keyAlgorithm = some .rsa →
        self.cert.rsaPublicKeyModulus = .ok modulus →
        modulus.length = 257 →
        self.algorithmId = .ok .rsa2048) ∧
    (∀ (σ : Type) (self : CertificateSigner σ) (modulus : List Nat)
        (digestData : DigestAlgorithm → List Nat → List Nat)
        (digestInfoHeader : DigestAlgorithm → List Nat) (message : List Nat),
        self.cert.keyAlgorithm = some .rsa →
        self.cert.rsaPublicKeyModulus = .ok modulus →
        modulus.length ≠ 129 → modulus.length ≠ 257 →
        (self.sign digestData digestInfoHeader message).result =
          .error (.other "unable to determine RSA key algorithm") ∧
        (self.sign digestData digestInfoHeader message).opCalls = 0) := by
  refine ⟨?_, ?_, ?_⟩
  · intro σ self modulus hk hm hlen
    simp [CertificateSigner.algorithmId, hk, hm, rsaAlgorithmId, hlen]
  · intro σ self modulus hk hm hlen
    simp [CertificateSigner.algorithmId, hk, hm, rsaAlgorithmId, hlen]
  · intro σ self modulus digestData digestInfoHeader message hk hm h129 h257
    have halg : self.algorithmId = .error (.other "unable to determine RSA key algorithm") := by
      simp [CertificateSigner.algorithmId, hk, hm, rsaAlgorithmId, h129, h257]
    constructor
    · simp [CertificateSigner.sign, halg]
    · simp [CertificateSigner.sign, halg]

/-- C5, witness: the classification at the three concrete witness signers
(moduli of 129, 257 and 384 bytes). -/
theorem c5_rsa_modulus_classification_witness :
    witnessSigner129.algorithmId = .ok .rsa1024 ∧
    witnessSigner257.algorithmId = .ok .rsa2048 ∧
    (witnessSigner384.sign witnessDigestData witnessDigestInfoHeader [5, 6]).result =
      .error (.other "unable to determine RSA key algorithm") ∧
    (witnessSigner384.sign witnessDigestData witnessDigestInfoHeader [5, 6]).opCalls = 0 := by
  refine ⟨?_, ?_, ?_, ?_⟩
  · exact c5_rsa_modulus_classification.1 Unit witnessSigner129 (List.replicate 129 0) rfl rfl
      (by rw [List.length_replicate])
  · exact c5_rsa_modulus_classification.2.1 Unit witnessSigner257 (List.replicate 257 0) rfl rfl
      (by rw [List.length_replicate])
  · exact (c5_rsa_modulus_classification.2.2 Unit witnessSigner384 (List.replicate 384 0)
      witnessDigestData witnessDigestInfoHeader [5, 6] rfl rfl
      (by rw [List.length_replicate]; decide) (by rw [List.length_replicate]; decide)).1
  · exact (c5_rsa_modulus_classification.2.2 Unit witnessSigner384 (List.replicate 384 0)
      witnessDigestData witnessDigestInfoHeader [5, 6] rfl rfl
      (by rw [List.length_replicate]; decide) (by rw [List.length_replicate]; decide)).2

/-- C7: if the certificate holds an Ed25519 key, the sign invocation fails
immediately with the unsupported-key-algorithm error, before any PIN
resolution and before any invocation of the card's sign-data primitive. -/
theorem c7_ed25519_rejected {σ : Type} (self : CertificateSigner σ)
    (digestData : DigestAlgorithm → List Nat → List Nat)
    (digestInfoHeader : DigestAlgorithm → List Nat) (message : List Nat)
    (h : self.cert.keyAlgorithm = some .ed25519) :
    (self.sign digestData digestInfoHeader message).result =
      .error (.unknownKeyAlgorithm "unable to use ed25519 keys with smartcards") ∧
    (self.sign digestData digestInfoHeader message).opCalls = 0 ∧
    (self.sign digestData digestInfoHeader message).pinCbCalls = 0 := by
  have halg : self.algorithmId =
      .error (.unknownKeyAlgorithm "unable to use ed25519 keys with smartcards") := by
    simp [CertificateSigner.algorithmId, h]
  refine ⟨?_, ?_, ?_⟩ <;> simp [CertificateSigner.sign, halg]

/-- C7, witness: the Ed25519 witness signer fails immediately. -/
theorem c7_ed25519_rejected_witness :
    (witnessSignerEd.sign witnessDigestData witnessDigestInfoHeader [5, 6]).result =
      .error (.unknownKeyAlgorithm "unable to use ed25519 keys with smartcards") ∧
    (witnessSignerEd.sign witnessDigestData witnessDigestInfoHeader [5, 6]).opCalls = 0 :=
  ⟨(c7_ed25519_rejected witnessSignerEd witnessDigestData witnessDigestInfoHeader [5, 6] rfl).1,
   (c7_ed25519_rejected witnessSignerEd witnessDigestData witnessDigestInfoHeader [5, 6] rfl).2.1⟩

/-- C6: whatever bytes the card sees, every byte string handed to the card's
sign-data primitive during a sign invocation is the pre-computed payload: the
PKCS#1 v1.5-encoded digest of the message at the classified modulus width for
RSA (exactly 128 bytes for a 1024-bit key, 256 bytes for a 2048-bit key), and
the raw digest of the message for ECDSA P-256 and P-384, the digest algorithm
being the one derived from the certificate's signature algorithm. -/
theorem c6_sign_payload :
    (∀ (σ : Type) (self : CertificateSigner σ)
        (digestData : DigestAlgorithm → List Nat → List Nat)
        (digestInfoHeader : DigestAlgorithm → List Nat) (message : List Nat)
        (algorithmId : AlgorithmId) (sa : SignatureAlgorithm) (da : DigestAlgorithm),
        self.algorithmId = .ok algorithmId →
        self.cert.signatureAlgorithm = some sa →
        sa.digestAlgorithm = some da →
        (self.sign digestData digestInfoHeader message).requests =
          List.replicate (self.sign digestData digestInfoHeader message).opCalls
            (expectedSignPayload digestData digestInfoHeader algorithmId da message)) ∧
    (∀ (digestData : DigestAlgorithm → List Nat → List Nat)
        (digestInfoHeader : DigestAlgorithm → List Nat)
        (da : DigestAlgorithm) (message : List Nat),
        (digestInfoHeader da).length + (digestData da message).length + 3 ≤ 128 →
        (expectedSignPayload digestData digestInfoHeader .rsa1024 da message).length = 128) ∧
    (∀ (digestData : DigestAlgorithm → List Nat → List Nat)
        (digestInfoHeader : DigestAlgorithm → List Nat)
        (da : DigestAlgorithm) (message : List Nat),
        (digestInfoHeader da).length + (digestData da message).length + 3 ≤ 256 →
        (expectedSignPayload digestData digestInfoHeader .rsa2048 da message).length = 256) ∧
    (∀ (digestData : DigestAlgorithm → List Nat → List Nat)
        (digestInfoHeader : DigestAlgorithm → List Nat)
        (da : DigestAlgorithm) (message : List Nat),
        expectedSignPayload digestData digestInfoHeader .eccP256 da message =
          digestData da message ∧
        expectedSignPayload digestData digestInfoHeader .eccP384 da message =
          digestData da message) := by
  refine ⟨?_, ?_, ?_, ?_⟩
  · intro σ self digestData digestInfoHeader message algorithmId sa da ha hs hd
    simp only [CertificateSigner.sign, ha, hs, hd]
    have hlog := authGo_log
      (signOp self.yk self.slot
        (expectedSignPayload digestData digestInfoHeader algorithmId da message) algorithmId sa)
      (signVp self.yk) self.pinCallback
      (expectedSignPayload digestData digestInfoHeader algorithmId da message)
      (fun s => rfl) (fun s pin => rfl) MAX_ATTEMPTS 1 0 0 0 (self.yk.st, [])
    simpa [attemptAuthenticatedOperation] using hlog
  · intro digestData digestInfoHeader da message hroom
    simp only [expectedSignPayload, rsaPkcs1Encode, List.length_append, List.length_cons,
      List.length_nil, List.length_replicate]
    omega
  · intro digestData digestInfoHeader da message hroom
    simp only [expectedSignPayload, rsaPkcs1Encode, List.length_append, List.length_cons,
      List.length_nil, List.length_replicate]
    omega
  · intro digestData digestInfoHeader da message
    exact ⟨rfl, rfl⟩

set_option maxRecDepth 4000 in
/-- C6, witness: concrete instances of all four parts, on the witness RSA
signers and hash fixtures. -/
theorem c6_sign_payload_witness :
    (witnessSigner129.sign witnessDigestData witnessDigestInfoHeader [5, 6]).requests =
      List.replicate
        (witnessSigner129.sign witnessDigestData witnessDigestInfoHeader [5, 6]).opCalls
        (expectedSignPayload witnessDigestData witnessDigestInfoHeader .rsa1024 .sha256 [5, 6]) ∧
    (expectedSignPayload witnessDigestData witnessDigestInfoHeader .rsa1024 .sha256
        [5, 6]).length = 128 ∧
    (expectedSignPayload witnessDigestData witnessDigestInfoHeader .rsa2048 .sha256
        [5, 6]).length = 256 ∧
    expectedSignPayload witnessDigestData witnessDigestInfoHeader .eccP256 .sha256 [5, 6] =
      witnessDigestData .sha256 [5, 6] := by
  refine ⟨?_, ?_, ?_, ?_⟩
  · exact c6_sign_payload.1 Unit witnessSigner129 witnessDigestData witnessDigestInfoHeader
      [5, 6] .rsa1024 .rsaSha256 .sha256 rfl rfl rfl
  · exact c6_sign_payload.2.1 witnessDigestData witnessDigestInfoHeader .sha256 [5, 6]
      (by simp [witnessDigestData, witnessDigestInfoHeader])
  · exact c6_sign_payload.2.2.1 witnessDigestData witnessDigestInfoHeader .sha256 [5, 6]
      (by simp [witnessDigestData, witnessDigestInfoHeader])
  · exact (c6_sign_payload.2.2.2 witnessDigestData witnessDigestInfoHeader .sha256 [5, 6]).1

/-- C8: in the sign command the timestamp-server URL defaults to
`http://timestamp.apple.com/ts01` (a registered signing key with no
user-supplied URL gets exactly that server); the sentinel value "none"
disables timestamping on every successful run; and a timestamp server is
only ever configured when a signing key has been registered. -/
theorem c8_timestamp_configuration :
    (∀ (key : List Nat) (certs : List (List Nat)), certs ≠ [] →
        commandSignConfig none [key] certs = .ok ⟨true, some APPLE_TIMESTAMP_URL⟩) ∧
    (∀ (keys certs : List (List Nat)) (cfg : SignerConfig),
        commandSignConfig (some "none") keys certs = .ok cfg →
        cfg.timeStampUrl = none) ∧
    (∀ (cliTs : Option String) (keys certs : List (List Nat)) (cfg : SignerConfig),
        commandSignConfig cliTs keys certs = .ok cfg →
        cfg.timeStampUrl ≠ none →
        cfg.signingKeyRegistered = true) := by
  refine ⟨?_, ?_, ?_⟩
  · intro key certs hcerts
    simp [commandSignConfig, timestampUrlArgValue, APPLE_TIMESTAMP_URL, hcerts]
  · intro keys certs cfg h
    match keys with
    | [] =>
      simp only [commandSignConfig] at h
      split at h
      · cases h
      · cases h
        rfl
    | key :: rest =>
      simp only [commandSignConfig, timestampUrlArgValue, Option.getD] at h
      split at h
      · cases h
      · split at h
        · cases h
        · cases h
          rfl
  · intro cliTs keys certs cfg h hts
    match keys with
    | [] =>
      simp only [commandSignConfig] at h
      split at h
      · cases h
      · cases h
        cases hts rfl
    | key :: rest =>
      simp only [commandSignConfig] at h
      split at h
      · cases h
      · split at h
        · cases h
        · cases h
          rfl

/-- C8, witness: the three parts at concrete inputs — default URL with one
key and one certificate, the "none" sentinel, and registration gating. -/
theorem c8_timestamp_configuration_witness :
    commandSignConfig none [[0]] [[1]] = .ok ⟨true, some APPLE_TIMESTAMP_URL⟩ ∧
    (⟨true, none⟩ : SignerConfig).timeStampUrl = none ∧
    (⟨true, some APPLE_TIMESTAMP_URL⟩ : SignerConfig).signingKeyRegistered = true := by
  refine ⟨?_, ?_, ?_⟩
  · exact c8_timestamp_configuration.1 [0] [[1]] (by simp)
  · exact c8_timestamp_configuration.2.1 [[0]] [[1]] ⟨true, none⟩ (by rfl)
  · exact c8_timestamp_configuration.2.2 none [[0]] [[1]] ⟨true, some APPLE_TIMESTAMP_URL⟩
      (by rfl) (by simp)

/-- A successful certificate enumeration lists exactly the queried slots, in
order, as the keys of its result. -/
theorem findCertificatesGo_keys {σ : Type}
    (fromDer : List Nat → Except X509CertificateError CapturedX509Certificate)
    (yk : RawYubiKey σ) :
    ∀ (slots : List Nat) (certs : List (Nat × CapturedX509Certificate)),
      findCertificatesGo fromDer yk slots = .ok certs →
      certs.map Prod.fst = slots := by
  intro slots
  induction slots with
  | nil =>
    intro certs h
    injection h with h
    subst h
    rfl
  | cons slot rest ih =>
    intro certs h
    simp only [findCertificatesGo] at h
    cases hr : readSlotCertificate fromDer yk slot with
    | error e => rw [hr] at h; cases h
    | ok cert =>
      rw [hr] at h
      cases hrec : findCertificatesGo fromDer yk rest with
      | error e => rw [hrec] at h; cases h
      | ok tail =>
        rw [hrec] at h
        injection h with h
        subst h
        simp [ih tail hrec]

/-- Every entry of a successful certificate enumeration is the certificate
read and parsed from its own slot. -/
theorem findCertificatesGo_entries {σ : Type}
    (fromDer : List Nat → Except X509CertificateError CapturedX509Certificate)
    (yk : RawYubiKey σ) :
    ∀ (slots : List Nat) (certs : List (Nat × CapturedX509Certificate))
      (p : Nat × CapturedX509Certificate),
      findCertificatesGo fromDer yk slots = .ok certs →
      p ∈ certs →
      readSlotCertificate fromDer yk p.1 = .ok p.2 := by
  intro slots
  induction slots with
  | nil =>
    intro certs p h hp
    injection h with h
    subst h
    cases hp
  | cons slot rest ih =>
    intro certs p h hp
    simp only [findCertificatesGo] at h
    cases hr : readSlotCertificate fromDer yk slot with
    | error e => rw [hr] at h; cases h
    | ok cert =>
      rw [hr] at h
      cases hrec : findCertificatesGo fromDer yk rest with
      | error e => rw [hrec] at h; cases h
      | ok tail =>
        rw [hrec] at h
        injection h with h
        subst h
        rcases List.mem_cons.mp hp with hp1 | hp2
        · subst hp1
          exact hr
        · exact ih tail p hrec hp2

/-- The slot search of `get_certificate_signer` yields nothing when no
enumerated entry has the requested slot. -/
theorem findSomeSigner_eq_none {σ : Type} (ykDev : RawYubiKey σ) (pinCb : Option PinCallback)
    (slotId : Nat) :
    ∀ certs : List (Nat × CapturedX509Certificate),
      (∀ p ∈ certs, p.1 ≠ slotId) →
      (certs.findSome? fun p =>
        if p.1 = slotId then
          some ({ yk := ykDev, slot := slotId, cert := p.2, pinCallback := pinCb } :
            CertificateSigner σ)
        else none) = none := by
  intro certs
  induction certs with
  | nil => intro h; rfl
  | cons a tail ih =>
    intro h
    rw [List.findSome?_cons]
    have ha : a.1 ≠ slotId := h a (List.mem_cons_self a tail)
    rw [if_neg ha]
    exact ih fun p hp => h p (List.mem_cons_of_mem a hp)

/-- When the slot search of `get_certificate_signer` yields a signer, the
signer was built from an enumerated entry carrying the requested slot: its
fields are the shared handle, the requested slot, that entry's certificate
and the parent's PIN callback. -/
theorem findSomeSigner_eq_some {σ : Type} (ykDev : RawYubiKey σ) (pinCb : Option PinCallback)
    (slotId : Nat) (sg : CertificateSigner σ) :
    ∀ certs : List (Nat × CapturedX509Certificate),
      (certs.findSome? fun p =>
        if p.1 = slotId then
          some ({ yk := ykDev, slot := slotId, cert := p.2, pinCallback := pinCb } :
            CertificateSigner σ)
        else none) = some sg →
      sg = { yk := ykDev, slot := slotId, cert := sg.cert, pinCallback := pinCb } ∧
      (slotId, sg.cert) ∈ certs := by
  intro certs
  induction certs with
  | nil => intro h; cases h
  | cons a tail ih =>
    intro h
    rw [List.findSome?_cons] at h
    by_cases ha : a.1 = slotId
    · rw [if_pos ha] at h
      injection h with h
      subst h
      refine ⟨rfl, ?_⟩
      show ((slotId, a.2) : Nat × CapturedX509Certificate) ∈ a :: tail
      have hpair : ((slotId, a.2) : Nat × CapturedX509Certificate) = a := by
        rw [← ha]
      rw [hpair]
      exact List.mem_cons_self a tail
    · rw [if_neg ha] at h
      obtain ⟨h1, h2⟩ := ih h
      exact ⟨h1, List.mem_cons_of_mem a h2⟩

/-- C10: `get_certificate_signer` returns `Ok(None)` when the device holds no
certificate in the requested slot (the slot is not among the enumerated key
slots), and whenever it returns a signer, that signer holds the requested
slot id, the device handle shared with the parent `YubiKey`, the parent's PIN
callback, and exactly the certificate read and parsed from that slot — which
is one of the enumerated slots. It never fabricates a signer for a slot with
no certificate. -/
theorem c10_get_certificate_signer :
    (∀ (σ : Type) (fromDer : List Nat → Except X509CertificateError CapturedX509Certificate)
        (self : YubiKey σ) (slotId : Nat) (slots : List Nat)
        (certs : List (Nat × CapturedX509Certificate)),
        self.yk.pivKeySlots = .ok slots →
        self.findCertificates fromDer = .ok certs →
        slotId ∉ slots →
        self.getCertificateSigner fromDer slotId = .ok none) ∧
    (∀ (σ : Type) (fromDer : List Nat → Except X509CertificateError CapturedX509Certificate)
        (self : YubiKey σ) (slotId : Nat) (slots : List Nat) (sg : CertificateSigner σ),
        self.yk.pivKeySlots = .ok slots →
        self.getCertificateSigner fromDer slotId = .ok (some sg) →
        sg.slot = slotId ∧ sg.yk = self.yk ∧ sg.pinCallback = self.pinCallback ∧
        slotId ∈ slots ∧ readSlotCertificate fromDer self.yk slotId = .ok sg.cert) := by
  constructor
  · intro σ fromDer self slotId slots certs hslots hfind hnot
    have hkeys : certs.map Prod.fst = slots := by
      have h2 := hfind
      simp only [YubiKey.findCertificates, hslots] at h2
      exact findCertificatesGo_keys fromDer self.yk slots certs h2
    simp only [YubiKey.getCertificateSigner, hfind]
    rw [findSomeSigner_eq_none self.yk self.pinCallback slotId certs ?_]
    intro p hp hpe
    apply hnot
    have : p.1 ∈ certs.map Prod.fst := List.mem_map_of_mem Prod.fst hp
    rw [hkeys, hpe] at this
    exact this
  · intro σ fromDer self slotId slots sg hslots hget
    cases hfind : self.findCertificates fromDer with
    | error e =>
      rw [YubiKey.getCertificateSigner, hfind] at hget
      cases hget
    | ok certs =>
      rw [YubiKey.getCertificateSigner, hfind] at hget
      injection hget with hget
      obtain ⟨hsg, hmem⟩ := findSomeSigner_eq_some self.yk self.pinCallback slotId sg certs hget
      have h2 := hfind
      simp only [YubiKey.findCertificates, hslots] at h2
      have hkeys : certs.map Prod.fst = slots :=
        findCertificatesGo_keys fromDer self.yk slots certs h2
      have hread : readSlotCertificate fromDer self.yk slotId = .ok sg.cert :=
        findCertificatesGo_entries fromDer self.yk slots certs (slotId, sg.cert) h2 hmem
      refine ⟨?_, ?_, ?_, ?_, hread⟩
      · rw [hsg]
      · rw [hsg]
      · rw [hsg]
      · have : (slotId, sg.cert).1 ∈ certs.map Prod.fst := List.mem_map_of_mem Prod.fst hmem
        rw [hkeys] at this
        exact this

/-- C10, witness: on the witness device (key slots 1 and 2), requesting slot 5
yields `Ok(None)`, and requesting slot 2 yields the signer with the shared
handle, slot 2, the parsed certificate and the parent's callback. -/
theorem c10_get_certificate_signer_witness :
    witnessYubiKey.getCertificateSigner witnessFromDer 5 = .ok none ∧
    ((⟨witnessDevice, 2, rsaCert129, none⟩ : CertificateSigner Unit).slot = 2 ∧
      (⟨witnessDevice, 2, rsaCert129, none⟩ : CertificateSigner Unit).yk = witnessYubiKey.yk ∧
      (⟨witnessDevice, 2, rsaCert129, none⟩ : CertificateSigner Unit).pinCallback =
        witnessYubiKey.pinCallback ∧
      2 ∈ [1, 2] ∧
      readSlotCertificate witnessFromDer witnessYubiKey.yk 2 =
        .ok (⟨witnessDevice, 2, rsaCert129, none⟩ : CertificateSigner Unit).cert) := by
  constructor
  · exact c10_get_certificate_signer.1 Unit witnessFromDer witnessYubiKey 5 [1, 2]
      [(1, rsaCert129), (2, rsaCert129)] rfl rfl (by decide)
  · exact c10_get_certificate_signer.2 Unit witnessFromDer witnessYubiKey 2 [1, 2]
      ⟨witnessDevice, 2, rsaCert129, none⟩ rfl rfl

end AppleCodesign
